import Mathlib

/-!
Verification development for the Aster Bridge Python SDK
(src/client-sdks/python-bridge/aster.py).

The module is a tool-invocation client: `AsterBridge.call_tool` posts a
tool name and keyword arguments to an HTTP endpoint, retries retryable
failures with exponential backoff, and classifies outcomes into typed
errors.  We shallow-embed the module: parsed JSON bodies become `JVal`,
the transport (aiohttp) becomes an explicit stream of per-attempt events,
and `call_tool` becomes a fuel-based loop that also records a trace
(attempt count, requests sent, classified failures, backoff delays) so
that the observable behaviour of each attempt can be stated.  `retry_delay`
is a Python float; all values the code computes with it
(retry_delay * 2 ^ attempt) are exact in binary floating point for the
ranges involved, so we model it as a rational number.
-/

/-- A parsed JSON value, as produced by `resp.json()` in the source.
Numbers are modelled as integers (no claim depends on non-integral
numbers). -/
inductive JVal : Type where
  | null : JVal
  | bool : Bool → JVal
  | num : Int → JVal
  | str : String → JVal
  | arr : List JVal → JVal
  | obj : List (String × JVal) → JVal

/-- Python truthiness of a JSON value: `None`, `False`, `0`, `""` and empty
containers are falsy; everything else is truthy.  Used to embed
`if not result.get("success")` (aster.py line 121). -/
def JVal.truthy : JVal → Bool
  | .null => false
  | .bool b => b
  | .num n => n != 0
  | .str s => s != ""
  | .arr xs => !xs.isEmpty
  | .obj fs => !fs.isEmpty

/-- Embedding of Python `dict.get(key)`: the value at `key`, or `None`
(`JVal.null`) when the key is absent. -/
def jget (body : List (String × JVal)) (key : String) : JVal :=
  match List.lookup key body with
  | some v => v
  | none => .null

/-- Embedding of Python `dict.get(key, default)`. -/
def jgetD (body : List (String × JVal)) (key : String) (d : JVal) : JVal :=
  match List.lookup key body with
  | some v => v
  | none => d

/-- The errors the bridge raises (aster.py lines 20-35): `NetworkError`
carries a message; `ToolExecutionError` carries the tool name and the
service-supplied error value. -/
inductive BridgeError : Type where
  | networkError : String → BridgeError
  | toolExecutionError : String → JVal → BridgeError

/-- What the transport does on one attempt of `call_tool`: either an HTTP
response (status, body text, parsed JSON body), or one of the exceptions
the source catches: `aiohttp.ClientConnectorError`, a generic
`aiohttp.ClientError`, or `asyncio.TimeoutError`. -/
inductive TransportEvent : Type where
  | response (status : Nat) (text : String) (body : List (String × JVal))
  | connectError (msg : String)
  | clientError (msg : String)
  | timeoutError

/-- Status of a response event (0 for non-responses). -/
def TransportEvent.status : TransportEvent → Nat
  | .response s _ _ => s
  | _ => 0

/-- Body text of a response event ("" for non-responses). -/
def TransportEvent.text : TransportEvent → String
  | .response _ t _ => t
  | _ => ""

/-- Message of a connect-error event ("" otherwise). -/
def TransportEvent.connMsg : TransportEvent → String
  | .connectError m => m
  | _ => ""

/-- The event is a server-side (>= 500) HTTP response. -/
def isServer5xx (ev : TransportEvent) : Prop :=
  ∃ s t bod, ev = .response s t bod ∧ 500 ≤ s

/-- The bridge client configuration (aster.py lines 45-63).
`retry_delay` is modelled as a rational, see the module comment. -/
structure AsterBridge : Type where
  base_url : String
  max_retries : Nat
  retry_delay : ℚ

/-- Embedding of `base_url or os.environ.get("ASTER_BRIDGE_URL",
"http://localhost:8080")` (aster.py lines 59-61).  Python `or` tests
truthiness, so an explicit empty string falls through to the environment
value; `os.environ.get` with a default returns the environment value
whenever the variable is set, empty or not. -/
def resolve_base_url (base_url : Option String) (env : Option String) : String :=
  match base_url with
  | some s => if s = "" then env.getD "http://localhost:8080" else s
  | none => env.getD "http://localhost:8080"

/-- `AsterBridge.__init__` with all three parameters explicit; `env` is the
value of the `ASTER_BRIDGE_URL` environment variable at construction. -/
def AsterBridge.init (base_url : Option String) (env : Option String)
    (max_retries : Nat) (retry_delay : ℚ) : AsterBridge :=
  { base_url := resolve_base_url base_url env
    max_retries := max_retries
    retry_delay := retry_delay }

/-- `AsterBridge.__init__` with the source defaults `max_retries=3`,
`retry_delay=0.5` (aster.py lines 48-49). -/
def AsterBridge.initDefault (base_url : Option String) (env : Option String) : AsterBridge :=
  AsterBridge.init base_url env 3 (1 / 2)

/-- The request `call_tool` posts on every attempt (aster.py lines 93-96):
url `{base_url}/tools/call`, JSON payload `tool`/`input`, 60s timeout. -/
structure ToolRequest : Type where
  url : String
  tool : String
  input : List (String × JVal)
  timeoutSecs : Nat

/-- Build the (attempt-independent) request of one `call_tool` invocation. -/
def mkToolRequest (b : AsterBridge) (name : String) (kwargs : List (String × JVal)) :
    ToolRequest :=
  { url := b.base_url ++ "/tools/call"
    tool := name
    input := kwargs
    timeoutSecs := 60 }

/-- Message of the retryable server-error failure (aster.py lines 102-104). -/
def serverErrorMsg (status : Nat) (text : String) : String :=
  "Server error (HTTP " ++ toString status ++ "): " ++ text

/-- Message of the terminal client-error failure (aster.py lines 113-115). -/
def clientErrorMsg (status : Nat) (text : String) : String :=
  "Client error (HTTP " ++ toString status ++ "): " ++ text

/-- Message of the retryable connection failure (aster.py lines 129-132);
it names the configured endpoint. -/
def connectionErrorMsg (b : AsterBridge) (m : String) : String :=
  "Connection error: " ++ m ++ ". Is the bridge server running at " ++ b.base_url ++ "?"

/-- Message of the generic retryable network failure (aster.py line 140). -/
def networkErrorMsg (m : String) : String :=
  "Network error: " ++ m

/-- Message of the retryable timeout failure (aster.py line 152). -/
def timeoutErrorMsg (name : String) : String :=
  "Tool " ++ name ++ " timed out after 60 seconds"

/-- Message of the defensive fallback raised when the loop exits without a
recorded failure (aster.py line 161). -/
def exhaustedMsg (name : String) (max_retries : Nat) : String :=
  "Failed to call tool " ++ name ++ " after " ++ toString max_retries ++ " attempts"

/-- The backoff slept before the next attempt:
`self.retry_delay * (2 ** attempt)` (aster.py line 106 etc.). -/
def backoff (b : AsterBridge) (attempt : Nat) : ℚ :=
  b.retry_delay * 2 ^ attempt

/-- The observable outcome of one `call_tool` invocation: the returned
value or raised error, together with a trace of the attempts made, the
requests sent (one per attempt), the retryable failures recorded in
`last_error`, and the backoff delays slept between attempts. -/
structure CallResult : Type where
  outcome : Except BridgeError JVal
  attempts : Nat
  requests : List ToolRequest
  failures : List BridgeError
  delays : List ℚ

/-- The retry loop of `call_tool` (aster.py lines 89-161).  `fuel` is the
number of loop iterations left (`max_retries - attempt`); `attempt` is the
current 0-based attempt index; `reqs`, `fails` and `delays` accumulate the
trace.  Each iteration mirrors the source: post the request, then
  * status >= 500: record a retryable server failure; sleep and continue
    when `attempt < max_retries - 1`, else raise it (lines 99-108);
  * status >= 400: raise a terminal client failure (lines 110-115);
  * parsed body with falsy `success`: raise `ToolExecutionError` with the
    body error or "Unknown error", never retried (lines 120-123, 146-148);
  * otherwise return the body `result` field (line 125);
  * `ClientConnectorError` / other `ClientError` / `TimeoutError`: record a
    retryable failure and sleep-continue or raise (lines 127-156).
When the loop exhausts, raise the last recorded failure, or a defensive
generic failure when none exists (lines 158-161). -/
def callToolAux (b : AsterBridge) (name : String) (kwargs : List (String × JVal))
    (transport : Nat → TransportEvent) :
    Nat → Nat → List ToolRequest → List BridgeError → List ℚ → CallResult
  | 0, attempt, reqs, fails, delays =>
    { outcome := .error (match fails.getLast? with
        | some e => e
        | none => .networkError (exhaustedMsg name b.max_retries))
      attempts := attempt
      requests := reqs
      failures := fails
      delays := delays }
  | fuel + 1, attempt, reqs, fails, delays =>
    let reqs2 := reqs ++ [mkToolRequest b name kwargs]
    match transport attempt with
    | .response status text body =>
      if 500 ≤ status then
        let e := BridgeError.networkError (serverErrorMsg status text)
        if attempt < b.max_retries - 1 then
          callToolAux b name kwargs transport fuel (attempt + 1) reqs2 (fails ++ [e])
            (delays ++ [backoff b attempt])
        else
          { outcome := .error e, attempts := attempt + 1, requests := reqs2
            failures := fails ++ [e], delays := delays }
      else if 400 ≤ status then
        { outcome := .error (.networkError (clientErrorMsg status text))
          attempts := attempt + 1, requests := reqs2, failures := fails, delays := delays }
      else if (jget body "success").truthy = false then
        { outcome := .error (.toolExecutionError name (jgetD body "error" (.str "Unknown error")))
          attempts := attempt + 1, requests := reqs2, failures := fails, delays := delays }
      else
        { outcome := .ok (jget body "result")
          attempts := attempt + 1, requests := reqs2, failures := fails, delays := delays }
    | .connectError m =>
      let e := BridgeError.networkError (connectionErrorMsg b m)
      if attempt < b.max_retries - 1 then
        callToolAux b name kwargs transport fuel (attempt + 1) reqs2 (fails ++ [e])
          (delays ++ [backoff b attempt])
      else
        { outcome := .error e, attempts := attempt + 1, requests := reqs2
          failures := fails ++ [e], delays := delays }
    | .clientError m =>
      let e := BridgeError.networkError (networkErrorMsg m)
      if attempt < b.max_retries - 1 then
        callToolAux b name kwargs transport fuel (attempt + 1) reqs2 (fails ++ [e])
          (delays ++ [backoff b attempt])
      else
        { outcome := .error e, attempts := attempt + 1, requests := reqs2
          failures := fails ++ [e], delays := delays }
    | .timeoutError =>
      let e := BridgeError.networkError (timeoutErrorMsg name)
      if attempt < b.max_retries - 1 then
        callToolAux b name kwargs transport fuel (attempt + 1) reqs2 (fails ++ [e])
          (delays ++ [backoff b attempt])
      else
        { outcome := .error e, attempts := attempt + 1, requests := reqs2
          failures := fails ++ [e], delays := delays }

/-- `AsterBridge.call_tool(name, **kwargs)` run against a transport that
maps each attempt index to its event: the loop starts at attempt 0 with
`max_retries` iterations available and empty trace. -/
def AsterBridge.call_tool (b : AsterBridge) (name : String) (kwargs : List (String × JVal))
    (transport : Nat → TransportEvent) : CallResult :=
  callToolAux b name kwargs transport b.max_retries 0 [] [] []

/-- The observable outcome of `list_tools` (aster.py lines 163-174): the
returned value and the single GET request it performs. -/
structure ListToolsResult : Type where
  tools : JVal
  requests : List String

/-- `AsterBridge.list_tools`: one GET to `{base_url}/tools/list`, no retry;
returns `data.get("tools", [])` on the parsed body. -/
def AsterBridge.list_tools (b : AsterBridge) (body : List (String × JVal)) : ListToolsResult :=
  { tools := jgetD body "tools" (.arr [])
    requests := [b.base_url ++ "/tools/list"] }

/-- An aiohttp client session, identified by a creation id; `closed`
mirrors `session.closed`. -/
structure Session : Type where
  sid : Nat
  closed : Bool

/-- The mutable session state of one bridge instance: the `_session`
attribute plus a freshness counter supplying ids for newly created
sessions (two sessions created at different times are distinct objects). -/
structure SessionState : Type where
  session : Option Session
  nextSid : Nat

/-- Allocate a fresh open session (`aiohttp.ClientSession()`), store it in
`_session` and return it (aster.py line 69). -/
def freshSession (s : SessionState) : Session × SessionState :=
  let ns : Session := { sid := s.nextSid, closed := false }
  (ns, { session := some ns, nextSid := s.nextSid + 1 })

/-- `AsterBridge._get_session` (aster.py lines 66-70): create a session if
`_session is None or _session.closed`, else return the existing one. -/
def get_session (s : SessionState) : Session × SessionState :=
  match s.session with
  | none => freshSession s
  | some sess => if sess.closed then freshSession s else (sess, s)

/-- `AsterBridge.close` (aster.py lines 194-197): close the session if one
exists and is not already closed; otherwise do nothing. -/
def SessionState.close (s : SessionState) : SessionState :=
  match s.session with
  | none => s
  | some sess =>
    if sess.closed then s
    else { s with session := some { sess with closed := true } }

/-- Well-formedness of a session state: any stored session was allocated
before the freshness counter.  Holds for the initial state (no session)
and is preserved by `get_session` and `close`. -/
def SessionState.WF (s : SessionState) : Prop :=
  ∀ sess, s.session = some sess → sess.sid < s.nextSid

/-- A dynamically generated tool stub: a function of the keyword arguments
and the transport, returning the invocation outcome. -/
def Stub : Type :=
  List (String × JVal) → (Nat → TransportEvent) → CallResult

/-- `_generate_tool_function` (aster.py lines 299-314): the stub forwards
its keyword arguments to `call_tool(tool_name, **kwargs)` on the bridge
bound by injection. -/
def generate_tool_function (b : AsterBridge) (tool_name : String) : Stub :=
  fun kwargs transport => b.call_tool tool_name kwargs transport

/-- `_init_bridge` (aster.py lines 213-218) acting on the global `_bridge`
(passed and returned explicitly): reuse the existing instance when present,
else construct one from `base_url` with default retries/delay.  Returns the
bridge used and the new global. -/
def init_bridge (g : Option AsterBridge) (base_url : Option String) (env : Option String) :
    AsterBridge × Option AsterBridge :=
  match g with
  | some b => (b, some b)
  | none =>
    let b := AsterBridge.initDefault base_url env
    (b, some b)

/-- `inject_tools` (aster.py lines 317-341): initialize (or reuse) the
global bridge, then produce one stub per tool name.  Returns the new
global and the name-to-stub mapping (as an association list, in order). -/
def inject_tools (g : Option AsterBridge) (tools : List String)
    (base_url : Option String) (env : Option String) :
    Option AsterBridge × List (String × Stub) :=
  let p := init_bridge g base_url env
  (p.2, tools.map (fun tool_name => (tool_name, generate_tool_function p.1 tool_name)))

/-! ## Single-attempt behaviour (terminal classifications) -/

/-- C2: For every tool name and argument map, if the transport response is
successful (2xx) but its parsed body has `success == false`, `call_tool`
raises a `ToolExecutionError` carrying the tool name and the body error
message, after exactly one attempt with no retry or backoff delay. -/
theorem spec_c2 (b : AsterBridge) (name : String) (kwargs : List (String × JVal))
    (transport : Nat → TransportEvent)
    (hmr : 0 < b.max_retries)
    (st : Nat) (tx : String) (bod : List (String × JVal)) (em : String)
    (h0 : transport 0 = .response st tx bod)
    (h2xx : 200 ≤ st ∧ st < 300)
    (hsucc : List.lookup "success" bod = some (.bool false))
    (herr : List.lookup "error" bod = some (.str em)) :
    (b.call_tool name kwargs transport).outcome
        = .error (.toolExecutionError name (.str em)) ∧
    (b.call_tool name kwargs transport).attempts = 1 ∧
    (b.call_tool name kwargs transport).delays = [] := by
  obtain ⟨f, hf⟩ : ∃ f, b.max_retries = f + 1 :=
    ⟨b.max_retries - 1, (Nat.succ_pred_eq_of_pos hmr).symm⟩
  have h5 : ¬ 500 ≤ st := by omega
  have h4 : ¬ 400 ≤ st := by omega
  simp [AsterBridge.call_tool, hf, callToolAux, h0, h5, h4, jget, jgetD, hsucc, herr,
    JVal.truthy]

/-- Witness for C2 at a concrete transport. -/
theorem spec_c2_witness :
    ((AsterBridge.initDefault none none).call_tool "Read" []
        (fun _ => .response 200 "" [("success", .bool false), ("error", .str "boom")])).outcome
        = .error (.toolExecutionError "Read" (.str "boom")) ∧
    ((AsterBridge.initDefault none none).call_tool "Read" []
        (fun _ => .response 200 "" [("success", .bool false), ("error", .str "boom")])).attempts
        = 1 ∧
    ((AsterBridge.initDefault none none).call_tool "Read" []
        (fun _ => .response 200 "" [("success", .bool false), ("error", .str "boom")])).delays
        = [] :=
  spec_c2 _ "Read" [] _ (by decide) 200 "" _ "boom" rfl (by omega) rfl rfl

/-- C3: For every tool name and argument map, a successful (2xx) response
whose parsed body has `success == true` makes `call_tool` return exactly
the body `result` field, unmodified, in one attempt. -/
theorem spec_c3 (b : AsterBridge) (name : String) (kwargs : List (String × JVal))
    (transport : Nat → TransportEvent)
    (hmr : 0 < b.max_retries)
    (st : Nat) (tx : String) (bod : List (String × JVal)) (rv : JVal)
    (h0 : transport 0 = .response st tx bod)
    (h2xx : 200 ≤ st ∧ st < 300)
    (hsucc : List.lookup "success" bod = some (.bool true))
    (hres : List.lookup "result" bod = some rv) :
    (b.call_tool name kwargs transport).outcome = .ok rv ∧
    (b.call_tool name kwargs transport).attempts = 1 ∧
    (b.call_tool name kwargs transport).delays = [] := by
  obtain ⟨f, hf⟩ : ∃ f, b.max_retries = f + 1 :=
    ⟨b.max_retries - 1, (Nat.succ_pred_eq_of_pos hmr).symm⟩
  have h5 : ¬ 500 ≤ st := by omega
  have h4 : ¬ 400 ≤ st := by omega
  simp [AsterBridge.call_tool, hf, callToolAux, h0, h5, h4, jget, jgetD, hsucc, hres,
    JVal.truthy]

/-- Witness for C3 at a concrete transport. -/
theorem spec_c3_witness :
    ((AsterBridge.initDefault none none).call_tool "Read" []
        (fun _ => .response 200 "" [("success", .bool true), ("result", .str "data")])).outcome
        = .ok (.str "data") ∧
    ((AsterBridge.initDefault none none).call_tool "Read" []
        (fun _ => .response 200 "" [("success", .bool true), ("result", .str "data")])).attempts
        = 1 ∧
    ((AsterBridge.initDefault none none).call_tool "Read" []
        (fun _ => .response 200 "" [("success", .bool true), ("result", .str "data")])).delays
        = [] :=
  spec_c3 _ "Read" [] _ (by decide) 200 "" _ (.str "data") rfl (by omega) rfl rfl

/-- C4: For every tool name and argument map, a client-side (4xx) status
makes `call_tool` raise immediately after exactly one attempt, with no
retry and no backoff delay, regardless of how many retries remain. -/
theorem spec_c4 (b : AsterBridge) (name : String) (kwargs : List (String × JVal))
    (transport : Nat → TransportEvent)
    (hmr : 0 < b.max_retries)
    (st : Nat) (tx : String) (bod : List (String × JVal))
    (h0 : transport 0 = .response st tx bod)
    (h4xx : 400 ≤ st ∧ st < 500) :
    (b.call_tool name kwargs transport).outcome
        = .error (.networkError (clientErrorMsg st tx)) ∧
    (b.call_tool name kwargs transport).attempts = 1 ∧
    (b.call_tool name kwargs transport).delays = [] := by
  obtain ⟨f, hf⟩ : ∃ f, b.max_retries = f + 1 :=
    ⟨b.max_retries - 1, (Nat.succ_pred_eq_of_pos hmr).symm⟩
  have h5 : ¬ 500 ≤ st := by omega
  have h4 : 400 ≤ st := h4xx.1
  simp [AsterBridge.call_tool, hf, callToolAux, h0, h5, h4]

/-- Witness for C4 at a concrete transport, with many retries remaining. -/
theorem spec_c4_witness :
    ((AsterBridge.init none none 7 (1 / 2)).call_tool "Read" []
        (fun _ => .response 404 "not found" [])).outcome
        = .error (.networkError (clientErrorMsg 404 "not found")) ∧
    ((AsterBridge.init none none 7 (1 / 2)).call_tool "Read" []
        (fun _ => .response 404 "not found" [])).attempts = 1 ∧
    ((AsterBridge.init none none 7 (1 / 2)).call_tool "Read" []
        (fun _ => .response 404 "not found" [])).delays = [] :=
  spec_c4 _ "Read" [] _ (by decide) 404 "not found" [] rfl (by omega)

/-- C10: For every tool name and argument map, a successful (2xx) response
whose parsed body lacks the `success` key, or holds any falsy value for
it, makes `call_tool` raise a `ToolExecutionError`; when the `error` key
is also absent the message is exactly "Unknown error". -/
theorem spec_c10 (b : AsterBridge) (name : String) (kwargs : List (String × JVal))
    (transport : Nat → TransportEvent)
    (hmr : 0 < b.max_retries)
    (st : Nat) (tx : String) (bod : List (String × JVal))
    (h0 : transport 0 = .response st tx bod)
    (h2xx : 200 ≤ st ∧ st < 300)
    (hsucc : List.lookup "success" bod = none ∨
      ∃ v, List.lookup "success" bod = some v ∧ v.truthy = false) :
    (b.call_tool name kwargs transport).outcome
        = .error (.toolExecutionError name (jgetD bod "error" (.str "Unknown error"))) ∧
    (List.lookup "error" bod = none →
      (b.call_tool name kwargs transport).outcome
        = .error (.toolExecutionError name (.str "Unknown error"))) ∧
    (b.call_tool name kwargs transport).attempts = 1 := by
  obtain ⟨f, hf⟩ : ∃ f, b.max_retries = f + 1 :=
    ⟨b.max_retries - 1, (Nat.succ_pred_eq_of_pos hmr).symm⟩
  have h5 : ¬ 500 ≤ st := by omega
  have h4 : ¬ 400 ≤ st := by omega
  have htr : (jget bod "success").truthy = false := by
    rcases hsucc with h | ⟨v, hv, htv⟩
    · simp [jget, h, JVal.truthy]
    · simp [jget, hv, htv]
  refine ⟨?_, ?_, ?_⟩
  · simp [AsterBridge.call_tool, hf, callToolAux, h0, h5, h4, htr]
  · intro herr
    simp [AsterBridge.call_tool, hf, callToolAux, h0, h5, h4, htr, jgetD, herr]
  · simp [AsterBridge.call_tool, hf, callToolAux, h0, h5, h4, htr]

/-- Witness for C10: body with neither `success` nor `error` key. -/
theorem spec_c10_witness :
    ((AsterBridge.initDefault none none).call_tool "Read" []
        (fun _ => .response 200 "" [])).outcome
        = .error (.toolExecutionError "Read" (jgetD [] "error" (.str "Unknown error"))) ∧
    (List.lookup "error" ([] : List (String × JVal)) = none →
      ((AsterBridge.initDefault none none).call_tool "Read" []
        (fun _ => .response 200 "" [])).outcome
        = .error (.toolExecutionError "Read" (.str "Unknown error"))) ∧
    ((AsterBridge.initDefault none none).call_tool "Read" []
        (fun _ => .response 200 "" [])).attempts = 1 :=
  spec_c10 _ "Read" [] _ (by decide) 200 "" [] rfl (by omega) (Or.inl rfl)

/-! ## The retry loop under persistent server errors -/

/-- Loop invariant for a transport that answers 5xx on every remaining
attempt: the loop consumes all its fuel, sleeping the exponential backoff
after every attempt but the last, and ends by raising the failure recorded
on the final attempt. -/
theorem callToolAux_allServer (b : AsterBridge) (name : String)
    (kwargs : List (String × JVal)) (transport : Nat → TransportEvent) :
    ∀ fuel attempt reqs fails delays,
      attempt + fuel = b.max_retries →
      0 < fuel →
      (∀ i, attempt ≤ i → i < b.max_retries → isServer5xx (transport i)) →
      callToolAux b name kwargs transport fuel attempt reqs fails delays =
        { outcome := .error (.networkError (serverErrorMsg
              (transport (b.max_retries - 1)).status (transport (b.max_retries - 1)).text))
          attempts := b.max_retries
          requests := reqs ++ List.replicate fuel (mkToolRequest b name kwargs)
          failures := fails ++ (List.range' attempt fuel).map
            (fun i => .networkError (serverErrorMsg (transport i).status (transport i).text))
          delays := delays ++ (List.range' attempt (fuel - 1)).map (fun i => backoff b i) } := by
  intro fuel
  induction fuel with
  | zero => intro attempt reqs fails delays hsum hpos hall; exact absurd hpos (by omega)
  | succ f ih =>
    intro attempt reqs fails delays hsum hpos hall
    obtain ⟨s, t, bod, hev, hs⟩ := hall attempt (Nat.le_refl _) (by omega)
    match f, ih with
    | 0, _ =>
      have hnlt : ¬ attempt < b.max_retries - 1 := by omega
      have hlast : b.max_retries - 1 = attempt := by omega
      simp [callToolAux, hev, hs, hnlt, hlast, TransportEvent.status, TransportEvent.text,
        List.range'_succ]
      omega
    | f2 + 1, ih =>
      have hlt : attempt < b.max_retries - 1 := by omega
      have step : callToolAux b name kwargs transport (f2 + 1 + 1) attempt reqs fails delays
          = callToolAux b name kwargs transport (f2 + 1) (attempt + 1)
              (reqs ++ [mkToolRequest b name kwargs])
              (fails ++ [.networkError (serverErrorMsg s t)])
              (delays ++ [backoff b attempt]) := by
        simp [callToolAux, hev, hs, hlt]
      rw [step, ih (attempt + 1) _ _ _ (by omega) (by omega)
        (fun i hi1 hi2 => hall i (by omega) hi2)]
      simp [List.replicate_succ, List.range'_succ, hev, TransportEvent.status,
        TransportEvent.text]

/-- C1: For every tool name and argument map, if the transport returns a
server-side (5xx) status on every attempt, `call_tool` makes exactly
`max_retries` attempts, waits `retry_delay * 2 ^ attempt` between
consecutive attempts, and then raises the last-observed retryable failure
itself: a `NetworkError` carrying the final response status and body, not
a re-wrapped generic error. -/
theorem spec_c1 (b : AsterBridge) (name : String) (kwargs : List (String × JVal))
    (transport : Nat → TransportEvent)
    (hmr : 0 < b.max_retries)
    (hall : ∀ i, i < b.max_retries →
      ∃ s t bod, transport i = .response s t bod ∧ 500 ≤ s ∧ s ≤ 599)
    (s : Nat) (t : String) (bod : List (String × JVal))
    (hlast : transport (b.max_retries - 1) = .response s t bod) :
    (b.call_tool name kwargs transport).attempts = b.max_retries ∧
    (b.call_tool name kwargs transport).delays
        = (List.range (b.max_retries - 1)).map (fun i => b.retry_delay * 2 ^ i) ∧
    (b.call_tool name kwargs transport).outcome
        = .error (.networkError (serverErrorMsg s t)) := by
  have h := callToolAux_allServer b name kwargs transport b.max_retries 0 [] [] []
    (by omega) hmr
    (fun i _ hi => by
      obtain ⟨s2, t2, bod2, he, h5, _⟩ := hall i hi
      exact ⟨s2, t2, bod2, he, h5⟩)
  unfold AsterBridge.call_tool
  rw [h]
  refine ⟨rfl, ?_, ?_⟩
  · simp [List.range_eq_range', backoff]
  · simp [hlast, TransportEvent.status, TransportEvent.text]

/-- Witness for C1: three attempts against a transport that always answers
HTTP 503. -/
theorem spec_c1_witness :
    ((AsterBridge.initDefault none none).call_tool "Read" []
        (fun _ => .response 503 "oops" [])).attempts
        = (AsterBridge.initDefault none none).max_retries ∧
    ((AsterBridge.initDefault none none).call_tool "Read" []
        (fun _ => .response 503 "oops" [])).delays
        = (List.range ((AsterBridge.initDefault none none).max_retries - 1)).map
            (fun i => (AsterBridge.initDefault none none).retry_delay * 2 ^ i) ∧
    ((AsterBridge.initDefault none none).call_tool "Read" []
        (fun _ => .response 503 "oops" [])).outcome
        = .error (.networkError (serverErrorMsg 503 "oops")) :=
  spec_c1 _ "Read" [] _ (by decide)
    (fun i _ => ⟨503, "oops", [], rfl, by omega, by omega⟩) 503 "oops" [] rfl

/-! ## The retry loop under connection failures that eventually clear -/

/-- Loop invariant for a transport that raises a connection error on every
remaining attempt except the last, which answers successfully: the loop
records one retryable connection failure (naming the endpoint) and one
backoff sleep per failed attempt, then returns the body result field. -/
theorem callToolAux_connThenSuccess (b : AsterBridge) (name : String)
    (kwargs : List (String × JVal)) (transport : Nat → TransportEvent)
    (st : Nat) (tx : String) (bod : List (String × JVal))
    (hresp : transport (b.max_retries - 1) = .response st tx bod)
    (hst : st < 400)
    (hsucc : (jget bod "success").truthy = true) :
    ∀ fuel attempt reqs fails delays,
      attempt + fuel = b.max_retries →
      0 < fuel →
      (∀ i, attempt ≤ i → i < b.max_retries - 1 → ∃ m, transport i = .connectError m) →
      callToolAux b name kwargs transport fuel attempt reqs fails delays =
        { outcome := .ok (jget bod "result")
          attempts := b.max_retries
          requests := reqs ++ List.replicate fuel (mkToolRequest b name kwargs)
          failures := fails ++ (List.range' attempt (fuel - 1)).map
            (fun i => .networkError (connectionErrorMsg b (transport i).connMsg))
          delays := delays ++ (List.range' attempt (fuel - 1)).map (fun i => backoff b i) } := by
  intro fuel
  induction fuel with
  | zero => intro attempt reqs fails delays hsum hpos hall; exact absurd hpos (by omega)
  | succ f ih =>
    intro attempt reqs fails delays hsum hpos hall
    match f, ih with
    | 0, _ =>
      have hlast : b.max_retries - 1 = attempt := by omega
      have hev : transport attempt = .response st tx bod := by rw [← hlast]; exact hresp
      have h5 : ¬ 500 ≤ st := by omega
      have h4 : ¬ 400 ≤ st := by omega
      simp [callToolAux, hev, h5, h4, hsucc]
      omega
    | f2 + 1, ih =>
      have hlt : attempt < b.max_retries - 1 := by omega
      obtain ⟨m, hev⟩ := hall attempt (Nat.le_refl _) hlt
      have step : callToolAux b name kwargs transport (f2 + 1 + 1) attempt reqs fails delays
          = callToolAux b name kwargs transport (f2 + 1) (attempt + 1)
              (reqs ++ [mkToolRequest b name kwargs])
              (fails ++ [.networkError (connectionErrorMsg b m)])
              (delays ++ [backoff b attempt]) := by
        simp [callToolAux, hev, hlt]
      rw [step, ih (attempt + 1) _ _ _ (by omega) (by omega)
        (fun i hi1 hi2 => hall i (by omega) hi2)]
      simp [List.replicate_succ, List.range'_succ, hev, TransportEvent.connMsg]

/-- C5: For every tool name and argument map, if the transport raises a
connection error on each of the first `max_retries - 1` attempts and the
final attempt succeeds with `success == true`, `call_tool` returns the
successful result; the total number of attempts equals `max_retries`, and
each intermediate connection failure is classified retryable with a
diagnostic message including the target endpoint. -/
theorem spec_c5 (b : AsterBridge) (name : String) (kwargs : List (String × JVal))
    (transport : Nat → TransportEvent)
    (hmr : 0 < b.max_retries)
    (msgs : Nat → String)
    (hconn : ∀ i, i < b.max_retries - 1 → transport i = .connectError (msgs i))
    (st : Nat) (tx : String) (bod : List (String × JVal))
    (hresp : transport (b.max_retries - 1) = .response st tx bod)
    (h2xx : 200 ≤ st ∧ st < 300)
    (hsucc : List.lookup "success" bod = some (.bool true)) :
    (b.call_tool name kwargs transport).outcome = .ok (jget bod "result") ∧
    (b.call_tool name kwargs transport).attempts = b.max_retries ∧
    (b.call_tool name kwargs transport).failures
        = (List.range (b.max_retries - 1)).map
            (fun i => .networkError (connectionErrorMsg b (msgs i))) ∧
    ∀ e ∈ (b.call_tool name kwargs transport).failures,
      ∃ pre post, e = .networkError (pre ++ b.base_url ++ post) := by
  have htr : (jget bod "success").truthy = true := by simp [jget, hsucc, JVal.truthy]
  have h := callToolAux_connThenSuccess b name kwargs transport st tx bod hresp
    (by omega) htr b.max_retries 0 [] [] [] (by omega) hmr
    (fun i _ hi => ⟨msgs i, hconn i hi⟩)
  unfold AsterBridge.call_tool
  rw [h]
  have hfl : (List.range' 0 (b.max_retries - 1)).map
      (fun i => BridgeError.networkError (connectionErrorMsg b (transport i).connMsg))
      = (List.range (b.max_retries - 1)).map
          (fun i => .networkError (connectionErrorMsg b (msgs i))) := by
    rw [List.range_eq_range']
    refine List.map_congr_left ?_
    intro i hi
    have hi2 : i < b.max_retries - 1 := by
      have := List.mem_range'_1.mp hi
      omega
    rw [hconn i hi2, TransportEvent.connMsg]
  refine ⟨rfl, rfl, ?_, ?_⟩
  · simpa using hfl
  · intro e he
    simp only [List.nil_append] at he
    rw [hfl] at he
    obtain ⟨i, hi, rfl⟩ := List.mem_map.mp he
    exact ⟨"Connection error: " ++ msgs i ++ ". Is the bridge server running at ", "?", rfl⟩

/-- Witness for C5: two refused connections, then a successful response,
with the default three retries. -/
theorem spec_c5_witness :
    ((AsterBridge.initDefault none none).call_tool "Read" []
        (fun i => if i < 2 then .connectError "refused"
          else .response 200 "" [("success", .bool true), ("result", .str "ok")])).outcome
        = .ok (jget [("success", .bool true), ("result", .str "ok")] "result") ∧
    ((AsterBridge.initDefault none none).call_tool "Read" []
        (fun i => if i < 2 then .connectError "refused"
          else .response 200 "" [("success", .bool true), ("result", .str "ok")])).attempts
        = (AsterBridge.initDefault none none).max_retries ∧
    ((AsterBridge.initDefault none none).call_tool "Read" []
        (fun i => if i < 2 then .connectError "refused"
          else .response 200 "" [("success", .bool true), ("result", .str "ok")])).failures
        = (List.range ((AsterBridge.initDefault none none).max_retries - 1)).map
            (fun _ => .networkError
              (connectionErrorMsg (AsterBridge.initDefault none none) "refused")) := by
  have h := spec_c5 (AsterBridge.initDefault none none) "Read" []
    (fun i => if i < 2 then .connectError "refused"
      else .response 200 "" [("success", .bool true), ("result", .str "ok")])
    (by decide) (fun _ => "refused")
    (fun i hi => by
      have : i < 2 := by simpa [AsterBridge.initDefault, AsterBridge.init] using hi
      simp [this])
    200 "" [("success", .bool true), ("result", .str "ok")] rfl (by omega) rfl
  exact ⟨h.1, h.2.1, h.2.2.1⟩

/-! ## Stub injection, sessions, configuration, discovery -/

/-- C6: `inject_tools` initializes (or reuses) one process-wide bridge
instance, bound on initialization to the given endpoint or the configured
default; it returns a mapping whose keys are exactly the given names, and
each value is a callable that forwards its keyword arguments unchanged to
one `call_tool(name, arguments)` invocation, returning its result or
propagating its failure unchanged. -/
theorem spec_c6 (g : Option AsterBridge) (tools : List String)
    (base_url env : Option String) :
    ((inject_tools g tools base_url env).1 = some (init_bridge g base_url env).1) ∧
    (g = none → (init_bridge g base_url env).1 = AsterBridge.initDefault base_url env) ∧
    (∀ b0, g = some b0 → (init_bridge g base_url env).1 = b0) ∧
    ((inject_tools g tools base_url env).2.map Prod.fst = tools) ∧
    (∀ pr ∈ (inject_tools g tools base_url env).2, ∀ kwargs transport,
      pr.2 kwargs transport
        = (init_bridge g base_url env).1.call_tool pr.1 kwargs transport) := by
  refine ⟨?_, ?_, ?_, ?_, ?_⟩
  · cases g <;> rfl
  · intro hg; subst hg; rfl
  · intro b0 hg; subst hg; rfl
  · simp only [inject_tools, List.map_map]
    exact List.map_id tools
  · intro pr hpr kwargs transport
    simp only [inject_tools, List.mem_map] at hpr
    obtain ⟨n, hn, rfl⟩ := hpr
    rfl

/-- Witness for C6: injecting a single tool "Read" into a fresh process. -/
theorem spec_c6_witness :
    ((inject_tools none ["Read"] none none).2.map Prod.fst = ["Read"]) ∧
    ((inject_tools none ["Read"] none none).1
        = some (AsterBridge.initDefault none none)) ∧
    (("Read", generate_tool_function (AsterBridge.initDefault none none) "Read")
        ∈ (inject_tools none ["Read"] none none).2) ∧
    (generate_tool_function (AsterBridge.initDefault none none) "Read"
        [("path", .str "file.txt")]
        (fun _ => .response 200 "" [("success", .bool true)])
      = (AsterBridge.initDefault none none).call_tool "Read"
          [("path", .str "file.txt")]
          (fun _ => .response 200 "" [("success", .bool true)])) := by
  have h := spec_c6 none ["Read"] none none
  have hmem : ("Read", generate_tool_function (AsterBridge.initDefault none none) "Read")
      ∈ (inject_tools none ["Read"] none none).2 := by
    simp [inject_tools, init_bridge]
  refine ⟨h.2.2.2.1, ?_, hmem, ?_⟩
  · rw [h.1, h.2.1 rfl]
  · have h5 := h.2.2.2.2 _ hmem [("path", .str "file.txt")]
      (fun _ => .response 200 "" [("success", .bool true)])
    simpa [init_bridge] using h5

/-- C7: session acquisition is idempotent (a second acquisition returns
the same live session and leaves the state unchanged), closing then
re-acquiring produces a new session, and `close` is a no-op when the
session is absent or already closed. -/
theorem spec_c7 (s : SessionState) (hwf : s.WF) :
    ((get_session (get_session s).2).1 = (get_session s).1 ∧
      (get_session (get_session s).2).2 = (get_session s).2) ∧
    (get_session ((get_session s).2.close)).1.sid ≠ (get_session s).1.sid ∧
    (s.session = none → s.close = s) ∧
    (∀ sess, s.session = some sess → sess.closed = true → s.close = s) := by
  obtain ⟨sopt, n⟩ := s
  match sopt with
  | none =>
    refine ⟨⟨rfl, rfl⟩, ?_, fun _ => rfl, ?_⟩
    · simp [get_session, freshSession, SessionState.close]
    · intro sess h; exact absurd h (by simp)
  | some ⟨sid, false⟩ =>
    have hlt : sid < n := hwf ⟨sid, false⟩ rfl
    refine ⟨⟨rfl, rfl⟩, ?_, ?_, ?_⟩
    · simp [get_session, freshSession, SessionState.close]
      omega
    · intro h; exact absurd h (by simp)
    · intro sess h hc
      simp only [SessionState.session] at h
      cases h
      exact absurd hc (by simp)
  | some ⟨sid, true⟩ =>
    refine ⟨⟨rfl, rfl⟩, ?_, ?_, ?_⟩
    · simp [get_session, freshSession, SessionState.close]
    · intro h; exact absurd h (by simp)
    · intro sess h hc; rfl

/-- Witness for C7 at the initial session state (no session yet). -/
theorem spec_c7_witness :
    ((get_session (get_session ⟨none, 0⟩).2).1 = (get_session ⟨none, 0⟩).1 ∧
      (get_session (get_session ⟨none, 0⟩).2).2 = (get_session ⟨none, 0⟩).2) ∧
    (get_session ((get_session ⟨none, 0⟩).2.close)).1.sid
        ≠ (get_session (⟨none, 0⟩ : SessionState)).1.sid ∧
    ((⟨none, 0⟩ : SessionState).session = none →
      SessionState.close ⟨none, 0⟩ = ⟨none, 0⟩) ∧
    (∀ sess, (⟨none, 0⟩ : SessionState).session = some sess → sess.closed = true →
      SessionState.close ⟨none, 0⟩ = ⟨none, 0⟩) :=
  spec_c7 ⟨none, 0⟩ (fun sess h => absurd h (by simp))

/-- C8 counterexample: the claim says the endpoint is resolved from the
explicit `base_url` parameter whenever it is given, but an explicitly
given empty string is falsy in Python, so `base_url or ...` falls through
to the environment value. -/
theorem spec_c8_counterexample :
    (AsterBridge.initDefault (some "") (some "http://alt:9000")).base_url
        = "http://alt:9000" ∧
    ¬ (AsterBridge.initDefault (some "") (some "http://alt:9000")).base_url = "" := by
  constructor <;> simp [AsterBridge.initDefault, AsterBridge.init, resolve_base_url]

/-- C8 (amended): at construction the endpoint is resolved from the
explicit `base_url` parameter when given and non-empty, otherwise from the
`ASTER_BRIDGE_URL` environment value when set, otherwise the hardcoded
default "http://localhost:8080"; `max_retries` defaults to 3 and
`retry_delay` defaults to 0.5. -/
theorem spec_c8_amended (base_url env : Option String) :
    (∀ s, base_url = some s → s ≠ "" →
      (AsterBridge.initDefault base_url env).base_url = s) ∧
    (∀ e, (base_url = none ∨ base_url = some "") → env = some e →
      (AsterBridge.initDefault base_url env).base_url = e) ∧
    ((base_url = none ∨ base_url = some "") → env = none →
      (AsterBridge.initDefault base_url env).base_url = "http://localhost:8080") ∧
    (AsterBridge.initDefault base_url env).max_retries = 3 ∧
    (AsterBridge.initDefault base_url env).retry_delay = 1 / 2 := by
  refine ⟨?_, ?_, ?_, rfl, rfl⟩
  · intro s hs hne
    subst hs
    simp [AsterBridge.initDefault, AsterBridge.init, resolve_base_url, hne]
  · intro e hb he
    subst he
    rcases hb with hb | hb <;> subst hb <;>
      simp [AsterBridge.initDefault, AsterBridge.init, resolve_base_url]
  · intro hb he
    subst he
    rcases hb with hb | hb <;> subst hb <;>
      simp [AsterBridge.initDefault, AsterBridge.init, resolve_base_url]

/-- Witness for C8 (amended) at a concrete non-empty explicit parameter. -/
theorem spec_c8_witness :
    (AsterBridge.initDefault (some "http://h") none).base_url = "http://h" ∧
    (AsterBridge.initDefault (some "http://h") none).max_retries = 3 ∧
    (AsterBridge.initDefault (some "http://h") none).retry_delay = 1 / 2 := by
  have h := spec_c8_amended (some "http://h") none
  exact ⟨h.1 "http://h" rfl (by decide), h.2.2.2.1, h.2.2.2.2⟩

/-- C9: when the service reports no tools (an empty `tools` list or a body
without a `tools` field), `list_tools` returns an empty sequence rather
than raising, using a single request with no retry. -/
theorem spec_c9 (b : AsterBridge) (body : List (String × JVal))
    (h : List.lookup "tools" body = none ∨ List.lookup "tools" body = some (.arr [])) :
    (b.list_tools body).tools = .arr [] ∧ (b.list_tools body).requests.length = 1 := by
  rcases h with h | h <;> simp [AsterBridge.list_tools, jgetD, h]

/-- Witness for C9: a body with no `tools` field. -/
theorem spec_c9_witness :
    ((AsterBridge.initDefault none none).list_tools []).tools = .arr [] ∧
    ((AsterBridge.initDefault none none).list_tools []).requests.length = 1 :=
  spec_c9 _ [] (Or.inl rfl)
